import Mathlib

/-!
Shallow embedding of `src/common/ui-wrapper.js` from the kaltura-player-js
repository: the `UIWrapper` class, its `Proxy`-based disabling, and the two
module-level helper functions `appendPlayerViewToTargetContainer` and
`getPreviewThumbnailConfig`.

The wrapper is side-effecting JavaScript glue code; we model it purely:
every method returns the (unchanged or updated) wrapper state, a return
value, and a trace of observable effects (calls issued on the underlying
`UIManager`, DOM appends, stylesheet loads, log lines).
-/

/-- JavaScript values, restricted to the shapes this file inspects
(scalar config fields such as `toggleStereo`, `startInStereo`, `css`,
`thumbsWidth`). Numbers are modelled as integers. -/
inductive JSVal where
  | undef
  | null
  | bool (b : Bool)
  | num (n : Int)
  | str (s : String)
  deriving Repr, DecidableEq

/-- JavaScript truthiness of a scalar value (`if (v)` / `!!v`). -/
def JSVal.truthy : JSVal → Bool
  | .undef => false
  | .null => false
  | .bool b => b
  | .num n => n != 0
  | .str s => s != ""

/-- A JavaScript object with scalar-valued properties, as an association
list (first binding of a key wins on lookup). -/
abbrev Obj := List (String × JSVal)

/-- Property lookup: `o[k]`, `none` when the property is absent
(JavaScript `undefined`). -/
def Obj.get (o : Obj) (k : String) : Option JSVal :=
  (o.find? (fun p => p.1 == k)).map (fun p => p.2)

/-- Model of `Utils.Object.mergeDeep(target, a, b)` restricted to two
scalar-valued sources merged into a fresh `{}` target: every property of
`b` overrides the property of the same name in `a`; properties appearing
in only one source are kept. -/
def mergeTwo (a b : Obj) : Obj :=
  match a with
  | [] => b
  | p :: rest => if (Obj.get b p.1).isSome then mergeTwo rest b else p :: mergeTwo rest b

theorem Obj.get_cons (p : String × JSVal) (o : Obj) (k : String) :
    Obj.get (p :: o) k = if p.1 == k then some p.2 else Obj.get o k := by
  by_cases h : p.1 == k <;> simp [Obj.get, List.find?, h]

theorem Obj.get_mergeTwo (a b : Obj) (k : String) :
    Obj.get (mergeTwo a b) k = (Obj.get b k).orElse (fun _ => Obj.get a k) := by
  induction a with
  | nil =>
    simp only [mergeTwo]
    cases h : Obj.get b k <;> rfl
  | cons p rest ih =>
    by_cases hk : p.1 == k
    · have hpk : p.1 = k := eq_of_beq hk
      by_cases hp : (Obj.get b p.1).isSome
      · have hbk : (Obj.get b k).isSome := hpk ▸ hp
        obtain ⟨w, hw⟩ := Option.isSome_iff_exists.mp hbk
        simp only [mergeTwo, hp, if_true, ih, hw, Option.orElse]
      · have hbk : Obj.get b k = none := by
          rw [← hpk]
          exact Option.not_isSome_iff_eq_none.mp hp
        simp [mergeTwo, hp, Obj.get_cons, hk, hbk, Option.orElse]
    · by_cases hp : (Obj.get b p.1).isSome
      · have hm : mergeTwo (p :: rest) b = mergeTwo rest b := by
          simp [mergeTwo, hp]
        rw [hm, ih]
        cases hb : Obj.get b k <;> simp [Option.orElse, Obj.get_cons, hk, hb]
      · have hm : mergeTwo (p :: rest) b = p :: mergeTwo rest b := by
          simp [mergeTwo, hp]
        rw [hm, Obj.get_cons]
        simp only [hk, if_false, ih]
        cases hb : Obj.get b k <;> simp [Option.orElse, Obj.get_cons, hk, hb]

/-- A DOM element: its id and the list of child views already attached
(views are abstract ids). -/
structure DomElement where
  id : String
  children : List Nat
  deriving Repr, DecidableEq

/-- The document, as the flat list of its elements. -/
abbrev Dom := List DomElement

/-- Model of `document.getElementById`: the first element with the id. -/
def getElementById (d : Dom) (i : String) : Option DomElement :=
  d.find? (fun e => e.id == i)

/-- Append a child view to the first element with the given id. -/
def appendToFirst : Dom → String → Nat → Dom
  | [], _, _ => []
  | e :: rest, tid, v =>
    if e.id == tid then { e with children := e.children ++ [v] } :: rest
    else e :: appendToFirst rest tid v

/-- Model of the module-level helper `appendPlayerViewToTargetContainer`:
look up the target element; when found, append the player view to it;
otherwise do nothing. -/
def appendPlayerViewToTargetContainer (d : Dom) (targetId : String) (view : Nat) : Dom :=
  match getElementById d targetId with
  | some _ => appendToFirst d targetId view
  | none => d

/-- Number of occurrences of a view among all children in the document. -/
def countView (d : Dom) (v : Nat) : Nat :=
  (d.map (fun e => e.children.count v)).sum

theorem countView_appendToFirst (d : Dom) (tid : String) (v : Nat)
    (h : (getElementById d tid).isSome) :
    countView (appendToFirst d tid v) v = countView d v + 1 := by
  induction d with
  | nil => simp [getElementById] at h
  | cons e rest ih =>
    by_cases he : e.id == tid
    · simp [appendToFirst, he, countView, List.count_append]
      omega
    · have h' : (getElementById rest tid).isSome := by
        simpa [getElementById, List.find?, he] using h
      simp [appendToFirst, he, countView] at ih ⊢
      have := ih h'
      omega

/-- The device environment fields of `Env` from the playkit core that
`_setStereoConfig` reads. -/
structure EnvDevice where
  isMobile : Bool
  isTablet : Bool
  deriving Repr, DecidableEq

/-- The `vr` plugin configuration object (`vrConfig: Object`, untyped in
the source, so fields are raw JavaScript values). -/
structure VrConfig where
  disable : JSVal := .undef
  toggleStereo : JSVal := .undef
  startInStereo : JSVal := .undef
  deriving Repr, DecidableEq

/-- The `plugins` section of the player options (`KPPluginsConfigObject`);
only the `vr` entry is read by the wrapper. `none` means no `vr` key. -/
structure PluginsConfig where
  vr : Option VrConfig := none
  deriving Repr, DecidableEq

/-- The `ui` section of the player options (`KPUIOptionsObject`), with the
fields the wrapper reads. `components_seekbar` models the lookup
`Utils.Object.getPropertyPath(uiConfig, 'components.seekbar')` (`none`
when the path is absent). -/
structure UIConf where
  disable : Bool := false
  targetId : String := ""
  customPreset : Option Nat := none
  css : Option String := none
  components_seekbar : Option Obj := none
  deriving Repr, DecidableEq

/-- The full `KPOptionsObject` slice the wrapper reads. -/
structure KPOptions where
  ui : UIConf
  plugins : Option PluginsConfig := none
  deriving Repr, DecidableEq

/-- A call issued on the underlying `UIManager` instance. Components,
managers and presets are abstract ids. -/
inductive ManagerCall where
  | newUIManager (config : UIConf)
  | buildCustomUI (preset : Nat)
  | buildDefaultUI
  | setConfig (config : Obj) (componentAlias : Option String)
  | addComponent (component : Nat)
  | registerManager (name : String) (manager : Nat)
  | getManager (name : String)
  | hasManager (name : String)
  | destroy
  deriving Repr, DecidableEq

/-- An observable effect of the wrapper: a manager call, a stylesheet
load request, or a log line. -/
inductive Eff where
  | call (c : ManagerCall)
  | loadCSS (url : String)
  | logDebug (msg : String)
  | logError (msg : String)
  deriving Repr, DecidableEq

/-- Truthiness of the optional `css` string field (`if (config.css)`). -/
def cssTruthy : Option String → Bool
  | none => false
  | some s => s != ""

/-- Model of `UIWrapper._handleExternalCSS`: request an asynchronous
stylesheet load exactly when `config.css` is truthy. The load outcome is
handled later by `cssLoadHandler`; the constructor does not wait on it. -/
def handleExternalCSS (config : UIConf) : List Eff :=
  match config.css with
  | some s => if s != "" then [Eff.loadCSS s] else []
  | none => []

/-- Model of the two continuations installed on the stylesheet-load
promise: the fulfilled handler logs a debug line, the rejected handler
logs an error line; neither rethrows, so the result is always `.ok`. -/
def cssLoadHandler (loaded : Bool) : Except JSVal (List Eff) :=
  if loaded then .ok [Eff.logDebug "external css was loaded successfully"]
  else .ok [Eff.logError "external css failed to load"]

/-- Model of `UIWrapper._setStereoConfig`. -/
def setStereoConfigEffs (env : EnvDevice) (vrConfig : VrConfig) : List Eff :=
  if vrConfig.toggleStereo.truthy
      || ((env.isMobile || env.isTablet) && vrConfig.toggleStereo != JSVal.bool false) then
    [Eff.call (.setConfig (mergeTwo [] [("vrStereoMode", .bool vrConfig.startInStereo.truthy)])
      (some "vrStereo"))]
  else []

/-- Model of `UIWrapper._handleVr` (`config` defaults to `{}` when the
options carry no plugins section). -/
def handleVrEffs (env : EnvDevice) (plugins : Option PluginsConfig) : List Eff :=
  let config := plugins.getD {}
  match config.vr with
  | some vr => if !vr.disable.truthy then setStereoConfigEffs env vr else []
  | none => []

/-- The wrapper's instance fields: `_disabled`, and whether `_uiManager`
was assigned (abstracting the manager instance itself). -/
structure Wrapper where
  _disabled : Bool
  _uiManager : Bool
  deriving Repr, DecidableEq

/-- Model of the `UIWrapper` constructor. It returns the wrapper state,
the updated document, and the trace of effects, in program order. -/
def UIWrapper.construct (env : EnvDevice) (dom : Dom) (playerView : Nat)
    (options : KPOptions) : Wrapper × Dom × List Eff :=
  let config := options.ui
  if config.disable then
    ({ _disabled := true, _uiManager := false },
     appendPlayerViewToTargetContainer dom config.targetId playerView,
     [])
  else
    ({ _disabled := false, _uiManager := true },
     dom,
     [Eff.call (.newUIManager config)]
       ++ (match config.customPreset with
           | some preset => [Eff.call (.buildCustomUI preset)]
           | none => [Eff.call .buildDefaultUI])
       ++ handleVrEffs env options.plugins
       ++ handleExternalCSS config)

/-- Modelled from the spec: the `./utils/thumbs` module is imported by
the wrapper but its source is not part of the provided snippet; the spec
mentions it only as "seekbar thumbnail preview configuration". It
provides `getThumbSlicesUrl` and the numeric constants
`DEFAULT_THUMBS_WIDTH` and `DEFAULT_THUMBS_SLICES`; all three are kept
abstract here (media configs are abstract ids). -/
structure ThumbsModel where
  getThumbSlicesUrl : Nat → Option Obj → JSVal
  defaultThumbsWidth : Int
  defaultThumbsSlices : Int

/-- Model of the module-level helper `getPreviewThumbnailConfig`: a fresh
object with the three preview-thumbnail defaults. -/
def getPreviewThumbnailConfig (tm : ThumbsModel) (mediaConfig : Nat)
    (seekbarConfig : Option Obj) : Obj :=
  [("thumbsSprite", tm.getThumbSlicesUrl mediaConfig seekbarConfig),
   ("thumbsWidth", .num tm.defaultThumbsWidth),
   ("thumbsSlices", .num tm.defaultThumbsSlices)]

/-- Model of `Utils.Object.mergeDeep({}, prevCfg, seekbarConfig)` where
`seekbarConfig` may be `undefined` (merging `undefined` is a no-op). -/
def mergeDeepEmptyTwo (prevCfg : Obj) (seekbarConfig : Option Obj) : Obj :=
  match seekbarConfig with
  | some sc => mergeTwo (mergeTwo [] prevCfg) sc
  | none => mergeTwo [] prevCfg

/-- The underlying `UIManager` instance, abstracted by the results it
returns for the three value-returning methods the wrapper forwards. -/
structure UIManagerModel where
  addComponentResult : Nat → Nat
  getManagerResult : String → Option Nat
  hasManagerResult : String → Bool

/-- A value returned to the caller of a wrapper method. -/
inductive RetVal where
  | undef
  | removal (f : Nat)
  | managerObj (o : Option Nat)
  | boolVal (b : Bool)
  deriving Repr, DecidableEq

/-- A wrapper method invocation, with its arguments. -/
inductive Method where
  | destroy
  | reset
  | setConfig (config : Obj) (componentAlias : Option String)
  | addComponent (component : Nat)
  | registerManager (name : String) (manager : Nat)
  | getManager (name : String)
  | hasManager (name : String)
  | setSeekbarConfig (mediaConfig : Nat) (uiConfig : UIConf)
  | setLoadingSpinnerState (shw : Bool)
  deriving Repr, DecidableEq

/-- Body of `UIWrapper.setConfig`: forward to `this._uiManager.setConfig`. -/
def UIWrapper.setConfigBody (config : Obj) (componentAlias : Option String) :
    RetVal × List Eff :=
  (.undef, [Eff.call (.setConfig config componentAlias)])

/-- Body of `UIWrapper._resetErrorState`. -/
def UIWrapper.resetErrorStateBody : RetVal × List Eff :=
  UIWrapper.setConfigBody [("hasError", .bool false)] (some "engine")

/-- Body of `UIWrapper.reset`. -/
def UIWrapper.resetBody : RetVal × List Eff :=
  UIWrapper.resetErrorStateBody

/-- Body of `UIWrapper.setSeekbarConfig`. -/
def UIWrapper.setSeekbarConfigBody (tm : ThumbsModel) (mediaConfig : Nat)
    (uiConfig : UIConf) : RetVal × List Eff :=
  let seekbarConfig := uiConfig.components_seekbar
  let previewThumbnailConfig := getPreviewThumbnailConfig tm mediaConfig seekbarConfig
  UIWrapper.setConfigBody (mergeDeepEmptyTwo previewThumbnailConfig seekbarConfig)
    (some "seekbar")

/-- Body of `UIWrapper.setLoadingSpinnerState`. -/
def UIWrapper.setLoadingSpinnerStateBody (shw : Bool) : RetVal × List Eff :=
  UIWrapper.setConfigBody [("show", .bool shw)] (some "loading")

/-- Body of `UIWrapper.destroy`: forward to `this._uiManager.destroy`. -/
def UIWrapper.destroyBody : RetVal × List Eff :=
  (.undef, [Eff.call .destroy])

/-- Result of a property access through the constructor's `Proxy`: either
the `() => undefined` stub (disabled wrapper) or the underlying member. -/
inductive PropAccess where
  | noopFn
  | member (prop : String)
  deriving Repr, DecidableEq

/-- The `get` trap of the `Proxy` returned by the constructor. -/
def UIWrapper.proxyGet (w : Wrapper) (prop : String) : PropAccess :=
  if w._disabled then .noopFn else .member prop

/-- Invoking a wrapper method through the `Proxy`: a disabled wrapper
intercepts the access with `() => undefined` (no effect, `undefined`
result); an enabled wrapper runs the method body. The wrapper state is
returned as well (no method assigns to the instance fields). -/
def UIWrapper.invoke (tm : ThumbsModel) (mgr : UIManagerModel) (w : Wrapper)
    (m : Method) : Wrapper × RetVal × List Eff :=
  if w._disabled then (w, .undef, [])
  else
    match m with
    | .destroy => (w, UIWrapper.destroyBody)
    | .reset => (w, UIWrapper.resetBody)
    | .setConfig c a => (w, UIWrapper.setConfigBody c a)
    | .addComponent c => (w, .removal (mgr.addComponentResult c), [Eff.call (.addComponent c)])
    | .registerManager n mg => (w, .undef, [Eff.call (.registerManager n mg)])
    | .getManager n => (w, .managerObj (mgr.getManagerResult n), [Eff.call (.getManager n)])
    | .hasManager n => (w, .boolVal (mgr.hasManagerResult n), [Eff.call (.hasManager n)])
    | .setSeekbarConfig mc uc => (w, UIWrapper.setSeekbarConfigBody tm mc uc)
    | .setLoadingSpinnerState s => (w, UIWrapper.setLoadingSpinnerStateBody s)

/-- Running a sequence of method invocations, tracking the wrapper state. -/
def UIWrapper.invokeSeq (tm : ThumbsModel) (mgr : UIManagerModel) (w : Wrapper)
    (ms : List Method) : Wrapper :=
  ms.foldl (fun w m => (UIWrapper.invoke tm mgr w m).1) w

/-- Spec-side description of forwarding (for the refinement claim): the
named call is passed verbatim to the manager and the manager's result is
returned unchanged; only the five configuration methods are described. -/
def specForward (mgr : UIManagerModel) (m : Method) : RetVal × List Eff :=
  match m with
  | .setConfig c a => (.undef, [Eff.call (.setConfig c a)])
  | .addComponent c => (.removal (mgr.addComponentResult c), [Eff.call (.addComponent c)])
  | .registerManager n mg => (.undef, [Eff.call (.registerManager n mg)])
  | .getManager n => (.managerObj (mgr.getManagerResult n), [Eff.call (.getManager n)])
  | .hasManager n => (.boolVal (mgr.hasManagerResult n), [Eff.call (.hasManager n)])
  | _ => (.undef, [])

/-- Whether an effect is a `setConfig` call on the `vrStereo` alias. -/
def Eff.isVrStereoCall : Eff → Bool
  | .call (.setConfig _ (some a)) => a == "vrStereo"
  | _ => false

/-- Whether an effect is a UI-building call on the manager. -/
def Eff.isBuildCall : Eff → Bool
  | .call (.buildCustomUI _) => true
  | .call .buildDefaultUI => true
  | _ => false

/-- Whether an effect is a stylesheet load request. -/
def Eff.isLoadCSS : Eff → Bool
  | .loadCSS _ => true
  | _ => false

theorem UIWrapper.invoke_fst (tm : ThumbsModel) (mgr : UIManagerModel) (w : Wrapper)
    (m : Method) : (UIWrapper.invoke tm mgr w m).1 = w := by
  unfold UIWrapper.invoke
  by_cases h : w._disabled
  · simp [h]
  · simp only [h, if_neg Bool.false_ne_true]
    cases m <;> rfl

theorem handleVrEffs_eq (env : EnvDevice) (plugins : Option PluginsConfig) :
    handleVrEffs env plugins =
      match (plugins.getD {}).vr with
      | some vr =>
          if (!vr.disable.truthy
              && (vr.toggleStereo.truthy
                  || ((env.isMobile || env.isTablet)
                      && vr.toggleStereo != JSVal.bool false))) = true then
            [Eff.call (.setConfig [("vrStereoMode", .bool vr.startInStereo.truthy)]
              (some "vrStereo"))]
          else []
      | none => [] := by
  cases hv : (plugins.getD {}).vr with
  | none => simp [handleVrEffs, hv]
  | some vr =>
    by_cases hd : vr.disable.truthy = true
    · simp [handleVrEffs, hv, hd]
    · by_cases ht : (vr.toggleStereo.truthy
          || ((env.isMobile || env.isTablet) && vr.toggleStereo != JSVal.bool false)) = true
      · simp [handleVrEffs, setStereoConfigEffs, hv, hd, ht, mergeTwo]
      · simp [handleVrEffs, setStereoConfigEffs, hv, hd, ht]

theorem handleVrEffs_filter_loadCSS (env : EnvDevice) (plugins : Option PluginsConfig) :
    (handleVrEffs env plugins).filter Eff.isLoadCSS = [] := by
  rw [handleVrEffs_eq]
  cases (plugins.getD {}).vr with
  | none => rfl
  | some vr => split <;> first | rfl | (split <;> rfl)

theorem handleVrEffs_filter_build (env : EnvDevice) (plugins : Option PluginsConfig) :
    (handleVrEffs env plugins).filter Eff.isBuildCall = [] := by
  rw [handleVrEffs_eq]
  cases (plugins.getD {}).vr with
  | none => rfl
  | some vr => split <;> first | rfl | (split <;> rfl)

theorem handleVrEffs_filter_vrStereo (env : EnvDevice) (plugins : Option PluginsConfig) :
    (handleVrEffs env plugins).filter Eff.isVrStereoCall = handleVrEffs env plugins := by
  rw [handleVrEffs_eq]
  cases (plugins.getD {}).vr with
  | none => rfl
  | some vr => split <;> first | rfl | (split <;> rfl)

theorem handleExternalCSS_eq (config : UIConf) :
    handleExternalCSS config
      = if cssTruthy config.css then [Eff.loadCSS (config.css.getD "")] else [] := by
  cases h : config.css with
  | none => simp [handleExternalCSS, cssTruthy, h]
  | some s =>
    by_cases hs : (s != "") = true
    · simp [handleExternalCSS, cssTruthy, h, hs]
    · simp [handleExternalCSS, cssTruthy, h, hs]

theorem handleExternalCSS_filter_loadCSS (config : UIConf) :
    (handleExternalCSS config).filter Eff.isLoadCSS = handleExternalCSS config := by
  rw [handleExternalCSS_eq]
  split <;> rfl

theorem handleExternalCSS_filter_vrStereo (config : UIConf) :
    (handleExternalCSS config).filter Eff.isVrStereoCall = [] := by
  rw [handleExternalCSS_eq]
  split <;> rfl

theorem handleExternalCSS_filter_build (config : UIConf) :
    (handleExternalCSS config).filter Eff.isBuildCall = [] := by
  rw [handleExternalCSS_eq]
  split <;> rfl

theorem construct_enabled_effs (env : EnvDevice) (dom : Dom) (view : Nat)
    (options : KPOptions) (h : options.ui.disable = false) :
    (UIWrapper.construct env dom view options).2.2
      = [Eff.call (.newUIManager options.ui)]
          ++ (match options.ui.customPreset with
              | some preset => [Eff.call (.buildCustomUI preset)]
              | none => [Eff.call .buildDefaultUI])
          ++ handleVrEffs env options.plugins
          ++ handleExternalCSS options.ui := by
  simp [UIWrapper.construct, h]

theorem construct_enabled_fst (env : EnvDevice) (dom : Dom) (view : Nat)
    (options : KPOptions) (h : options.ui.disable = false) :
    (UIWrapper.construct env dom view options).1
      = { _disabled := false, _uiManager := true } := by
  simp [UIWrapper.construct, h]

theorem construct_disabled_fst (env : EnvDevice) (dom : Dom) (view : Nat)
    (options : KPOptions) (h : options.ui.disable = true) :
    (UIWrapper.construct env dom view options).1
      = { _disabled := true, _uiManager := false } := by
  simp [UIWrapper.construct, h]

/-- A concrete thumbs model used by witness statements. -/
def tmW : ThumbsModel := ⟨fun _ _ => .undef, 100, 100⟩

/-- A concrete manager model used by witness statements. -/
def mgrW : UIManagerModel := ⟨fun c => c + 1, fun _ => some 5, fun n => n == "m"⟩

/-- A concrete device environment used by witness statements. -/
def envW : EnvDevice := ⟨false, false⟩

/-- Concrete options with the UI disabled, used by witness statements. -/
def optDisabledW : KPOptions := { ui := { disable := true, targetId := "t" } }

/-- Concrete options with an enabled UI and a vr plugin requesting stereo
toggling, used by witness statements. -/
def optVrW : KPOptions :=
  { ui := {},
    plugins := some { vr := some { toggleStereo := .bool true, startInStereo := .bool true } } }

/-- C1: a wrapper constructed with `options.ui.disable` true makes every
subsequent operation a no-op: any property access through the proxy
yields the `() => undefined` stub, so every method invocation issues no
manager call or other effect, leaves the wrapper state unchanged, and
returns `undefined`. -/
theorem C1_disabled_wrapper_noop (env : EnvDevice) (dom : Dom) (view : Nat)
    (options : KPOptions) (h : options.ui.disable = true) (tm : ThumbsModel)
    (mgr : UIManagerModel) (m : Method) (p : String) :
    UIWrapper.invoke tm mgr (UIWrapper.construct env dom view options).1 m
      = ((UIWrapper.construct env dom view options).1, .undef, [])
    ∧ UIWrapper.proxyGet (UIWrapper.construct env dom view options).1 p
      = .noopFn := by
  rw [construct_disabled_fst env dom view options h]
  exact ⟨rfl, rfl⟩

/-- Witness for C1 at concrete inputs. -/
theorem C1_disabled_wrapper_noop_witness :
    optDisabledW.ui.disable = true
    ∧ UIWrapper.invoke tmW mgrW
        (UIWrapper.construct envW [⟨"t", []⟩] 0 optDisabledW).1 .destroy
      = ((UIWrapper.construct envW [⟨"t", []⟩] 0 optDisabledW).1, .undef, []) :=
  ⟨rfl, (C1_disabled_wrapper_noop envW [⟨"t", []⟩] 0 optDisabledW rfl tmW mgrW
    .destroy "x").1⟩

/-- C2: with `ui.disable` falsy the constructor requests exactly one
stylesheet load when `config.css` is set (truthy) and none otherwise; the
load is asynchronous (the constructor only installs the handlers), and
each outcome produces exactly one log — debug on success, error on
failure — with no error propagated out of the wrapper. -/
theorem C2_external_css (env : EnvDevice) (dom : Dom) (view : Nat)
    (options : KPOptions) (h : options.ui.disable = false) :
    ((UIWrapper.construct env dom view options).2.2.filter Eff.isLoadCSS).length
        = (if cssTruthy options.ui.css then 1 else 0)
    ∧ (UIWrapper.construct env dom view options).2.2.filter Eff.isLoadCSS
        = (if cssTruthy options.ui.css then [Eff.loadCSS (options.ui.css.getD "")] else [])
    ∧ cssLoadHandler true = .ok [Eff.logDebug "external css was loaded successfully"]
    ∧ cssLoadHandler false = .ok [Eff.logError "external css failed to load"] := by
  have he : (UIWrapper.construct env dom view options).2.2.filter Eff.isLoadCSS
      = (if cssTruthy options.ui.css then [Eff.loadCSS (options.ui.css.getD "")] else []) := by
    rw [construct_enabled_effs env dom view options h]
    simp only [List.filter_append]
    rw [handleVrEffs_filter_loadCSS, handleExternalCSS_filter_loadCSS, handleExternalCSS_eq]
    cases options.ui.customPreset <;> rfl
  refine ⟨?_, he, rfl, rfl⟩
  rw [he]
  split <;> rfl

/-- Witness for C2 at concrete inputs (a css url is configured). -/
theorem C2_external_css_witness :
    (UIWrapper.construct envW [] 0 { ui := { css := some "u" } }).2.2.filter Eff.isLoadCSS
      = [Eff.loadCSS "u"] := by
  rw [(C2_external_css envW [] 0 { ui := { css := some "u" } } rfl).2.1]
  decide

/-- C3: with `ui.disable` falsy, the constructor issues a `vrStereo`
`setConfig` call carrying `vrStereoMode = !!plugins.vr.startInStereo`
exactly when `plugins.vr` exists, its `disable` is falsy, and either
`toggleStereo` is truthy or the environment is mobile or tablet and
`toggleStereo` is not exactly `false`; otherwise no `vrStereo` call is
issued. -/
theorem C3_vr_stereo (env : EnvDevice) (dom : Dom) (view : Nat)
    (options : KPOptions) (h : options.ui.disable = false) :
    (UIWrapper.construct env dom view options).2.2.filter Eff.isVrStereoCall
      = match (options.plugins.getD {}).vr with
        | some vr =>
            if vr.disable.truthy = false
                ∧ (vr.toggleStereo.truthy = true
                   ∨ ((env.isMobile = true ∨ env.isTablet = true)
                      ∧ vr.toggleStereo ≠ JSVal.bool false)) then
              [Eff.call (.setConfig [("vrStereoMode", .bool vr.startInStereo.truthy)]
                (some "vrStereo"))]
            else []
        | none => [] := by
  rw [construct_enabled_effs env dom view options h]
  simp only [List.filter_append]
  rw [handleVrEffs_filter_vrStereo, handleExternalCSS_filter_vrStereo, handleVrEffs_eq]
  have h1 : List.filter Eff.isVrStereoCall [Eff.call (.newUIManager options.ui)] = [] := rfl
  have h2 : List.filter Eff.isVrStereoCall
      (match options.ui.customPreset with
       | some preset => [Eff.call (.buildCustomUI preset)]
       | none => [Eff.call .buildDefaultUI]) = [] := by
    cases options.ui.customPreset <;> rfl
  rw [h1, h2]
  simp only [List.nil_append, List.append_nil]
  cases (options.plugins.getD {}).vr with
  | none => rfl
  | some vr =>
    have hiff : (!vr.disable.truthy
        && (vr.toggleStereo.truthy
            || ((env.isMobile || env.isTablet)
                && vr.toggleStereo != JSVal.bool false))) = true
        ↔ (vr.disable.truthy = false
           ∧ (vr.toggleStereo.truthy = true
              ∨ ((env.isMobile = true ∨ env.isTablet = true)
                 ∧ vr.toggleStereo ≠ JSVal.bool false))) := by
      simp [Bool.and_eq_true, Bool.or_eq_true, Bool.not_eq_true', bne_iff_ne]
    exact if_congr hiff rfl rfl

/-- Witness for C3 at concrete inputs (vr plugin with stereo toggling). -/
theorem C3_vr_stereo_witness :
    (UIWrapper.construct envW [] 0 optVrW).2.2.filter Eff.isVrStereoCall
      = [Eff.call (.setConfig [("vrStereoMode", JSVal.bool true)] (some "vrStereo"))] := by
  rw [C3_vr_stereo envW [] 0 optVrW rfl]
  decide

/-- C4: for an enabled wrapper, `setConfig`, `addComponent`,
`registerManager`, `getManager` and `hasManager` are each forwarded
verbatim to the manager method of the same name with the same arguments,
and the manager's result is returned unchanged. -/
theorem C4_forwarding (tm : ThumbsModel) (mgr : UIManagerModel) (w : Wrapper)
    (hw : w._disabled = false) (c : Obj) (a : Option String) (comp : Nat)
    (n : String) (mg : Nat) :
    (UIWrapper.invoke tm mgr w (.setConfig c a)).2 = specForward mgr (.setConfig c a)
    ∧ (UIWrapper.invoke tm mgr w (.addComponent comp)).2
      = specForward mgr (.addComponent comp)
    ∧ (UIWrapper.invoke tm mgr w (.registerManager n mg)).2
      = specForward mgr (.registerManager n mg)
    ∧ (UIWrapper.invoke tm mgr w (.getManager n)).2 = specForward mgr (.getManager n)
    ∧ (UIWrapper.invoke tm mgr w (.hasManager n)).2 = specForward mgr (.hasManager n) := by
  simp [UIWrapper.invoke, hw, specForward, UIWrapper.setConfigBody]

/-- Witness for C4 at concrete inputs. -/
theorem C4_forwarding_witness :
    (UIWrapper.invoke tmW mgrW ⟨false, true⟩ (.setConfig [("a", .num 1)] (some "x"))).2
      = specForward mgrW (.setConfig [("a", .num 1)] (some "x")) :=
  (C4_forwarding tmW mgrW ⟨false, true⟩ rfl [("a", .num 1)] (some "x") 0 "m" 0).1

/-- C5: with `ui.disable` falsy the constructor creates the UIManager
and immediately issues exactly one build call on it — `buildCustomUI
config.customPreset` when `customPreset` is set, `buildDefaultUI`
otherwise — and no other build call appears in the trace. -/
theorem C5_build_delegation (env : EnvDevice) (dom : Dom) (view : Nat)
    (options : KPOptions) (h : options.ui.disable = false) :
    (UIWrapper.construct env dom view options).2.2.filter Eff.isBuildCall
      = (match options.ui.customPreset with
         | some preset => [Eff.call (.buildCustomUI preset)]
         | none => [Eff.call .buildDefaultUI])
    ∧ (UIWrapper.construct env dom view options).2.2.take 2
      = [Eff.call (.newUIManager options.ui)]
          ++ (match options.ui.customPreset with
              | some preset => [Eff.call (.buildCustomUI preset)]
              | none => [Eff.call .buildDefaultUI]) := by
  constructor
  · rw [construct_enabled_effs env dom view options h]
    simp only [List.filter_append]
    rw [handleVrEffs_filter_build, handleExternalCSS_filter_build]
    cases options.ui.customPreset <;> rfl
  · rw [construct_enabled_effs env dom view options h]
    cases options.ui.customPreset <;> rfl

/-- Witness for C5 at concrete inputs (no custom preset). -/
theorem C5_build_delegation_witness :
    (UIWrapper.construct envW [] 0 { ui := {} }).2.2.filter Eff.isBuildCall
      = [Eff.call .buildDefaultUI] := by
  rw [(C5_build_delegation envW [] 0 { ui := {} } rfl).1]

/-- C6 counterexample: the module-level helper
`appendPlayerViewToTargetContainer` does not "perform configuration
merging only, with no other observable effect": on a concrete document
containing the target element it changes the DOM. -/
theorem C6_counterexample :
    appendPlayerViewToTargetContainer [⟨"t", []⟩] "t" 7 ≠ [⟨"t", []⟩] := by
  decide

/-- C6 (amended): the file's two module-level helpers are
`getPreviewThumbnailConfig`, which only builds a configuration object
from the thumbnail defaults, and `appendPlayerViewToTargetContainer`,
which is a DOM operation: it appends the player view once to the first
element matching the target id and leaves the document unchanged when no
such element exists. -/
theorem C6_helpers_amended (tm : ThumbsModel) (mc : Nat) (sc : Option Obj)
    (d : Dom) (t : String) (v : Nat) :
    getPreviewThumbnailConfig tm mc sc
      = [("thumbsSprite", tm.getThumbSlicesUrl mc sc),
         ("thumbsWidth", .num tm.defaultThumbsWidth),
         ("thumbsSlices", .num tm.defaultThumbsSlices)]
    ∧ appendPlayerViewToTargetContainer d t v
        = (if (getElementById d t).isSome then appendToFirst d t v else d)
    ∧ countView (appendPlayerViewToTargetContainer d t v) v
        = countView d v + (if (getElementById d t).isSome then 1 else 0) := by
  refine ⟨rfl, ?_, ?_⟩
  · unfold appendPlayerViewToTargetContainer
    cases h : getElementById d t <;> simp [h]
  · unfold appendPlayerViewToTargetContainer
    cases h : getElementById d t with
    | none => simp [h]
    | some e =>
      have hs : (getElementById d t).isSome = true := by rw [h]; rfl
      simp only [hs, if_true]
      exact countView_appendToFirst d t v hs

/-- C7: the wrapper holds no evolving state: `_disabled` equals the
constructor-time `options.ui.disable`, and any sequence of subsequent
method invocations leaves the instance fields (`_disabled`,
`_uiManager`) unchanged. -/
theorem C7_no_evolving_state (env : EnvDevice) (dom : Dom) (view : Nat)
    (options : KPOptions) (tm : ThumbsModel) (mgr : UIManagerModel)
    (ms : List Method) :
    ((UIWrapper.construct env dom view options).1)._disabled = options.ui.disable
    ∧ UIWrapper.invokeSeq tm mgr (UIWrapper.construct env dom view options).1 ms
        = (UIWrapper.construct env dom view options).1 := by
  constructor
  · by_cases h : options.ui.disable = true
    · rw [construct_disabled_fst env dom view options h, h]
    · have h' : options.ui.disable = false := by
        cases hb : options.ui.disable
        · rfl
        · exact absurd hb h
      rw [construct_enabled_fst env dom view options h', h']
  · generalize (UIWrapper.construct env dom view options).1 = w
    induction ms generalizing w with
    | nil => rfl
    | cons m rest ih =>
      show UIWrapper.invokeSeq tm mgr ((UIWrapper.invoke tm mgr w m).1) rest = w
      rw [UIWrapper.invoke_fst tm mgr w m]
      exact ih w

/-- C8: for an enabled wrapper `setSeekbarConfig` issues exactly one
`setConfig` call on the `seekbar` alias with a freshly merged object in
which every property present in `uiConfig.components.seekbar` overrides
the computed preview-thumbnail defaults (`thumbsSprite` from
`getThumbSlicesUrl`, `thumbsWidth` and `thumbsSlices` from the numeric
defaults), the defaults surviving only for absent properties. -/
theorem C8_seekbar_config (tm : ThumbsModel) (mgr : UIManagerModel) (w : Wrapper)
    (hw : w._disabled = false) (mc : Nat) (uc : UIConf) (k : String) :
    (UIWrapper.invoke tm mgr w (.setSeekbarConfig mc uc)).2
      = (.undef, [Eff.call (.setConfig
          (mergeDeepEmptyTwo (getPreviewThumbnailConfig tm mc uc.components_seekbar)
            uc.components_seekbar) (some "seekbar"))])
    ∧ Obj.get (mergeDeepEmptyTwo (getPreviewThumbnailConfig tm mc uc.components_seekbar)
          uc.components_seekbar) k
        = (uc.components_seekbar.bind (fun sc => Obj.get sc k)).orElse
            (fun _ => Obj.get (getPreviewThumbnailConfig tm mc uc.components_seekbar) k)
    ∧ Obj.get (getPreviewThumbnailConfig tm mc uc.components_seekbar) "thumbsSprite"
        = some (tm.getThumbSlicesUrl mc uc.components_seekbar)
    ∧ Obj.get (getPreviewThumbnailConfig tm mc uc.components_seekbar) "thumbsWidth"
        = some (.num tm.defaultThumbsWidth)
    ∧ Obj.get (getPreviewThumbnailConfig tm mc uc.components_seekbar) "thumbsSlices"
        = some (.num tm.defaultThumbsSlices) := by
  refine ⟨?_, ?_, rfl, rfl, rfl⟩
  · simp [UIWrapper.invoke, hw, UIWrapper.setSeekbarConfigBody, UIWrapper.setConfigBody]
  · cases hsc : uc.components_seekbar with
    | none => rfl
    | some sc => exact Obj.get_mergeTwo _ sc k

/-- Witness for C8 at concrete inputs (the seekbar config overrides the
`thumbsWidth` default). -/
theorem C8_seekbar_config_witness :
    Obj.get (mergeDeepEmptyTwo
        (getPreviewThumbnailConfig tmW 0
          ({ components_seekbar := some [("thumbsWidth", JSVal.num 7)] } : UIConf).components_seekbar)
        ({ components_seekbar := some [("thumbsWidth", JSVal.num 7)] } : UIConf).components_seekbar)
      "thumbsWidth" = some (JSVal.num 7) := by
  rw [(C8_seekbar_config tmW mgrW ⟨false, true⟩ rfl 0
    { components_seekbar := some [("thumbsWidth", JSVal.num 7)] } "thumbsWidth").2.1]
  rfl

theorem appendToFirst_eq_set (d : Dom) (t : String) (v : Nat) (e : DomElement)
    (h : getElementById d t = some e) :
    appendToFirst d t v
      = d.set (d.findIdx (fun el => el.id == t))
          { id := e.id, children := e.children ++ [v] } := by
  induction d with
  | nil => simp [getElementById] at h
  | cons a rest ih =>
    cases ha : (a.id == t) with
    | true =>
      have hae : a = e := by
        have h2 : some a = some e := by
          simpa [getElementById, List.find?, ha] using h
        exact Option.some.inj h2
      subst hae
      simp [appendToFirst, ha, List.findIdx_cons]
    | false =>
      have h' : getElementById rest t = some e := by
        simpa [getElementById, List.find?, ha] using h
      simp [appendToFirst, ha, List.findIdx_cons, ih h']

/-- C9: with `ui.disable` true the constructor appends the player view
to the element whose id is `config.targetId` exactly when such an
element exists: the resulting document is the original with the first
element whose id equals `targetId` (the one `getElementById` finds, and
its id does equal `targetId`) replaced by the same element with the view
appended to its children, every other element unchanged; when no such
element exists the constructor completes with the document unchanged. -/
theorem C9_target_append (env : EnvDevice) (dom : Dom) (view : Nat)
    (options : KPOptions) (h : options.ui.disable = true) :
    (getElementById dom options.ui.targetId = none →
        (UIWrapper.construct env dom view options).2.1 = dom)
    ∧ (∀ e, getElementById dom options.ui.targetId = some e →
        e.id = options.ui.targetId
        ∧ (UIWrapper.construct env dom view options).2.1
            = dom.set (dom.findIdx (fun el => el.id == options.ui.targetId))
                { id := e.id, children := e.children ++ [view] }) := by
  have hd : (UIWrapper.construct env dom view options).2.1
      = appendPlayerViewToTargetContainer dom options.ui.targetId view := by
    simp [UIWrapper.construct, h]
  rw [hd]
  constructor
  · intro hn
    unfold appendPlayerViewToTargetContainer
    rw [hn]
  · intro e he
    have he' : dom.find? (fun el => el.id == options.ui.targetId) = some e := he
    have hp := List.find?_some he'
    have hid : e.id = options.ui.targetId := eq_of_beq hp
    refine ⟨hid, ?_⟩
    unfold appendPlayerViewToTargetContainer
    rw [he]
    exact appendToFirst_eq_set dom options.ui.targetId view e he

/-- Witness for C9 at concrete inputs (the target element "t" exists and
is the one that receives the view; the other element is untouched). -/
theorem C9_target_append_witness :
    (UIWrapper.construct envW [⟨"t", []⟩, ⟨"u", []⟩] 3 optDisabledW).2.1
      = [⟨"t", [3]⟩, ⟨"u", []⟩] := by
  have h := ((C9_target_append envW [⟨"t", []⟩, ⟨"u", []⟩] 3 optDisabledW rfl).2
    ⟨"t", []⟩ rfl).2
  rw [h]
  decide

/-- C10: for an enabled wrapper, `reset()` is observationally equal to
`setConfig({hasError: false}, 'engine')` and `setLoadingSpinnerState(s)`
to `setConfig({show: s}, 'loading')`: same state, same `undefined`
result, and exactly that one forwarded call as the whole effect trace. -/
theorem C10_reset_spinner_equiv (tm : ThumbsModel) (mgr : UIManagerModel)
    (w : Wrapper) (hw : w._disabled = false) (shw : Bool) :
    UIWrapper.invoke tm mgr w .reset
      = UIWrapper.invoke tm mgr w (.setConfig [("hasError", .bool false)] (some "engine"))
    ∧ UIWrapper.invoke tm mgr w (.setLoadingSpinnerState shw)
      = UIWrapper.invoke tm mgr w (.setConfig [("show", .bool shw)] (some "loading"))
    ∧ UIWrapper.invoke tm mgr w .reset
      = (w, .undef, [Eff.call (.setConfig [("hasError", .bool false)] (some "engine"))])
    ∧ UIWrapper.invoke tm mgr w (.setLoadingSpinnerState shw)
      = (w, .undef, [Eff.call (.setConfig [("show", .bool shw)] (some "loading"))]) := by
  refine ⟨?_, ?_, ?_, ?_⟩ <;>
    simp [UIWrapper.invoke, hw, UIWrapper.resetBody, UIWrapper.resetErrorStateBody,
      UIWrapper.setLoadingSpinnerStateBody, UIWrapper.setConfigBody]

/-- Witness for C10 at concrete inputs. -/
theorem C10_reset_spinner_equiv_witness :
    UIWrapper.invoke tmW mgrW ⟨false, true⟩ .reset
      = UIWrapper.invoke tmW mgrW ⟨false, true⟩
          (.setConfig [("hasError", .bool false)] (some "engine")) :=
  (C10_reset_spinner_equiv tmW mgrW ⟨false, true⟩ rfl true).1
